import Mathlib

/-!
Shallow embedding of the tech-news-agent article-processing pipeline.

Python strings are modelled as `List Char` (`Str`), Python floats as `ℚ`
(every constant in the scored arithmetic is an exact decimal literal, so
the rational model matches the source arithmetic on the ranges involved),
and code that can raise is modelled with `Except PyErr`.  External
services (the local model host, the cloud LLM, the sumy library) are
modelled as oracle parameters, so theorems quantify over every possible
behaviour of those collaborators.
-/

/-- Python strings, modelled as lists of characters. -/
abbrev Str := List Char

/-- Convert a Lean string literal to the `Str` model. -/
def sdata (s : String) : Str := s.data

/-- The apostrophe character, used by source string literals. -/
def apos : Char := Char.ofNat 39

/-- Python `str.lower()` (ASCII case folding, which is all the source uses). -/
def lowerStr (s : Str) : Str := s.map Char.toLower

/-- Python regex `\s` / `str.isspace` for the ASCII range used by the source. -/
def pyIsSpace (c : Char) : Bool :=
  c = ' ' || c = '\t' || c = '\n' || c = '\r' || c = Char.ofNat 11 || c = Char.ofNat 12

/-- Python regex `\w`: alphanumeric or underscore. -/
def isWordC (c : Char) : Bool := c.isAlphanum || c = '_'

/-- Python `str.strip()`: drop leading and trailing whitespace. -/
def pyStrip (s : Str) : Str :=
  (s.dropWhile pyIsSpace).reverse.dropWhile pyIsSpace |>.reverse

/-- Predicate `isPrefOf n h` : the needle `n` occurs at the start of the haystack `h`. -/
def isPrefOf : Str → Str → Bool
  | [], _ => true
  | _ :: _, [] => false
  | a :: as, b :: bs => a == b && isPrefOf as bs

/-- Python `needle in haystack` substring test. -/
def subStr (n : Str) : Str → Bool
  | [] => n.isEmpty
  | c :: rest => isPrefOf n (c :: rest) || subStr n rest

/-- Python `sum(1 for kw in kws if kw in text)`: counts list entries, so a
keyword that appears twice in the list is counted twice. -/
def countKw (kws : List Str) (text : Str) : Nat :=
  match kws with
  | [] => 0
  | k :: rest => (if subStr k text then 1 else 0) + countKw rest text

/-- Python `any(kw in text for kw in kws)`. -/
def anyKw (kws : List Str) (text : Str) : Bool :=
  match kws with
  | [] => false
  | k :: rest => subStr k text || anyKw rest text

/-- Errors a Python expression can raise.  The source only distinguishes
exception classes in handlers that behave identically for every class, so a
small error type suffices; `attributeError` marks access to a field the
pydantic `Article` model does not define. -/
inductive PyErr
  | attributeError
  | runtime
  deriving DecidableEq, Repr

/-- Source `models/article.py`: the pydantic `Article` record.  `published_date` is a
timestamp; `summary` is a `str` defaulting to `""` (it is never `None`), and
`importance_score` is `Optional[float]` defaulting to `None`.  Note the model
has no `description` field. -/
structure Article where
  title : Str
  url : Str
  source_name : Str
  published_date : Int := 0
  authors : List Str := []
  content : Str := []
  summary : Str := []
  importance_score : Option ℚ := none
  categories : List Str := []
  deriving DecidableEq, Repr

/-- The expression `article.content or article.description` appearing in
`ollama_processor.py` (lines 130 and 195) and `simple_summarizer.py` (line 52).
When `content` is non-empty the `or` short-circuits and yields it; when
`content` is falsy (empty) Python evaluates `article.description`, and since
the `Article` model defines no `description` field this raises
`AttributeError`. -/
def contentOrDescription (a : Article) : Except PyErr Str :=
  if a.content ≠ [] then .ok a.content else .error .attributeError

/-- Source `utils/helpers.py::mask_sensitive_value` (lines 15-28). -/
def mask_sensitive_value (value : Str) : Str :=
  if value = [] ∨ value.length ≤ 4 then "****".data
  else value.take 1 ++ List.replicate (value.length - 2) '*' ++ value.drop (value.length - 1)

/-- Source `utils/helpers.py` lines 197-202: primary JVM technology keywords. -/
def primary_jvm_keywords : List Str :=
  ["java", "jdk", "jvm", "spring", "kotlin", "scala", "openjdk",
   "jakarta ee", "java ee", "spring boot", "hibernate", "quarkus",
   "micronaut", "graalvm", "jetbrains", "intellij", "jboss", "tomcat",
   "maven", "gradle", "javafx", "eclipse"].map String.data

/-- Source `utils/helpers.py` lines 205-213: secondary JVM technology keywords (note
`jpa` and `hibernate` each appear twice in the source list). -/
def secondary_jvm_keywords : List Str :=
  ["microservices", "reactive", "rest api", "graphql", "jpa", "jdbc",
   "orm", "dependency injection", "bytecode", "jit compiler", "garbage collection",
   "java virtual machine", "jni", "jms", "cloud native", "serverless",
   "containers", "kubernetes", "docker", "ci/cd", "devops", "jenkins",
   "apache", "wildfly", "weblogic", "websphere", "netty", "vert.x", "helidon",
   "spring cloud", "spring security", "spring data", "jakarta", "jee", "j2ee",
   "jpa", "hibernate", "jaxrs", "jaxb", "junit", "mockito", "testng"].map String.data

/-- Source `utils/helpers.py` lines 216-221: excluded topics. -/
def excluded_keywords : List Str :=
  ["amazon sale", "amazon prime", "best deals", "spring sale", "spring shopping",
   "movie", "tv show", "subscription", "discount", "coupon", "elon musk",
   "shopping", "prime day", "best buy", "apple tv", "netflix", "ps5", "xbox",
   "iphone", "android phone", "deal", "wired", "best gadgets"].map String.data

/-- The lowercased `title + ' ' + content` text the filter and the heuristic
scorer both operate on. -/
def titleContent (a : Article) : Str := lowerStr (a.title ++ ' ' :: a.content)

/-- Source `utils/helpers.py::filter_jvm_articles` (lines 186-244): keep an article
when `(primary_matches >= 1 or secondary_matches >= 3) and exclusion_matches < 2`. -/
def filter_jvm_articles : List Article → List Article
  | [] => []
  | a :: rest =>
    let tc := titleContent a
    if (1 ≤ countKw primary_jvm_keywords tc ∨ 3 ≤ countKw secondary_jvm_keywords tc)
        ∧ countKw excluded_keywords tc < 2 then
      a :: filter_jvm_articles rest
    else
      filter_jvm_articles rest

/-- Source `simple_summarizer.py` lines 221-229 and `local_summarizer.py` lines
128-136: technical depth indicators (the two files carry identical lists). -/
def technical_indicators : List Str :=
  ["tutorial", "guide", "how to", "implementation", "deploy", "architecture",
   "benchmark", "performance", "optimization", "deep dive", "code example",
   "pattern", "best practice", "lesson learned", "case study", "analysis",
   "research", "framework", "library", "algorithm", "data structure",
   "authentication", "authorization", "security", "encryption", "api",
   "microservice", "serverless", "cloud native", "container", "kubernetes",
   "docker", "ci/cd", "devops", "continuous integration", "continuous deployment"].map String.data

/-- Source `simple_summarizer.py` lines 232-240 / `local_summarizer.py` lines 139-147:
high-value JVM topics. -/
def high_value_topics : List Str :=
  ["java", "spring", "jvm", "jdk", "openjdk", "spring boot", "kotlin", "scala",
   "jakarta ee", "java ee", "hibernate", "quarkus", "micronaut", "graalvm",
   "security vulnerability", "cve", "critical bug", "major release", "spring security",
   "java 17", "java 21", "loom", "project loom", "virtual threads", "valhalla",
   "project valhalla", "pattern matching", "sealed classes", "records",
   "memory leak", "performance bottleneck", "garbage collection", "profiling",
   "bytecode", "jit", "compilation", "classloading", "jni", "native interface"].map String.data

/-- Source `simple_summarizer.py` lines 243-246 / `local_summarizer.py` lines 150-153:
JVM-specific news sources. -/
def jvm_specific_sources : List Str :=
  ["infoq java", "java code geeks", "baeldung", "spring blog", "inside java",
   "eclipse blog", "jooq blog", "vlad mihalcea", "dzone java", "jetbrains blog"].map String.data

/-- Source `simple_summarizer.py` lines 269-271 / `local_summarizer.py` lines 176-178:
super-boost phrases for critical JVM content. -/
def super_boost_terms : List Str :=
  ["critical vulnerability", "major release", "java lts", "spring boot 3",
   "spring framework 6", "jakarta ee 10", "java 21", "jdk 22",
   "virtual threads", "garbage collection improvement"].map String.data

/-- Source `simple_summarizer.py` lines 277-278 / `local_summarizer.py` lines 184-185:
generic, non-JVM content terms. -/
def generic_terms : List Str :=
  ["best deals", "sale", "discount", "movie", "show", "top 10",
   "best of", "review", "unboxing", "gaming", "games"].map String.data

/-- Source `SimpleSummarizer.rate_importance` (`simple_summarizer.py` lines 206-285)
before the final clamp; `LocalSummarizer._rate_importance`
(`local_summarizer.py` lines 113-192) is character-for-character the same
algorithm.  Base 0.5, plus capped technical and high-value bonuses, a source
bonus, a title bonus, a super boost, minus the generic-content penalty. -/
def rate_importance_raw (a : Article) : ℚ :=
  let text := titleContent a
  let technical_score : ℚ := min 0.2 ((countKw technical_indicators text : ℚ) * 0.02)
  let high_value_score : ℚ := min 0.4 ((countKw high_value_topics text : ℚ) * 0.04)
  let source_bonus : ℚ :=
    if anyKw jvm_specific_sources (lowerStr a.source_name) then 0.1 else 0
  let title_bonus : ℚ :=
    if anyKw high_value_topics (lowerStr a.title) then 0.1 else 0
  let super_boost : ℚ := if anyKw super_boost_terms text then 0.2 else 0
  let generic_penalty : ℚ := if 2 ≤ countKw generic_terms text then 0.2 else 0
  0.5 + technical_score + high_value_score + source_bonus + title_bonus
    + super_boost - generic_penalty

/-- Source `SimpleSummarizer.rate_importance` / `LocalSummarizer._rate_importance`:
the raw score clamped into `[0.0, 1.0]` (`max(0.0, min(1.0, score))`). -/
def rate_importance (a : Article) : ℚ :=
  max 0 (min 1 (rate_importance_raw a))

/-- The title fallback literal `f"{article.title} - From {article.source_name}"`
used across the processors. -/
def fallbackStr (a : Article) : Str := a.title ++ " - From ".data ++ a.source_name

/-- Python `" ".join(...)`. -/
def joinSpace : List Str → Str
  | [] => []
  | [s] => s
  | s :: rest => s ++ ' ' :: joinSpace rest

/-- Regex `re.sub(r'\s+', ' ', text)`: collapse every maximal whitespace run into a
single space.  The flag records whether the scan is inside a run. -/
def collapseWsAux : Bool → Str → Str
  | _, [] => []
  | inRun, c :: rest =>
    if pyIsSpace c then
      if inRun then collapseWsAux true rest else ' ' :: collapseWsAux true rest
    else c :: collapseWsAux false rest

/-- Regex `re.sub(r'\s+', ' ', text)`. -/
def collapseWs (s : Str) : Str := collapseWsAux false s

/-- The scheme alternatives of the regex `https?://`: length of the scheme
matched at the head of `l`, if any. -/
def urlSchemeLen (l : Str) : Option Nat :=
  if isPrefOf "https://".data l then some 8
  else if isPrefOf "http://".data l then some 7
  else none

/-- One left-to-right pass of `re.sub(r'https?://\S+', '', text)`: at a
position where the scheme matches and at least one non-space character
follows, the whole match (scheme plus the maximal non-space run) is removed;
otherwise the character is kept.  Fuel bounds the recursion; each step
consumes at least one character, so `length + 1` fuel always suffices. -/
def stripUrlsFuel : Nat → Str → Str
  | 0, l => l
  | _ + 1, [] => []
  | fuel + 1, c :: rest =>
    match urlSchemeLen (c :: rest) with
    | some n =>
      match (c :: rest).drop n with
      | d :: after =>
        if pyIsSpace d then c :: stripUrlsFuel fuel rest
        else stripUrlsFuel fuel ((d :: after).dropWhile (fun x => !pyIsSpace x))
      | [] => c :: stripUrlsFuel fuel rest
    | none => c :: stripUrlsFuel fuel rest

/-- Regex `re.sub(r'https?://\S+', '', text)`. -/
def stripUrls (s : Str) : Str := stripUrlsFuel (s.length + 1) s

/-- Source `SimpleSummarizer._clean_text` (`simple_summarizer.py` lines 103-119):
collapse whitespace, strip, then remove URLs. -/
def SimpleSummarizer.clean_text (text : Str) : Str :=
  stripUrls (pyStrip (collapseWs text))

/-- One candidate split position of the sentence regex
`(?<!\w\.\w.)(?<![A-Z][a-z]\.)(?<=\.|\?|\!)\s` from
`SimpleSummarizer._split_into_sentences`: `c` is the whitespace character and
`prev` lists the characters before it, nearest first.  The lookbehinds read,
from the split point backwards: sentence-ending punctuation at distance 1, not
`\w . \w <any>` at distances 4..1, and not `[A-Z][a-z].` at distances 3..1. -/
def isSplitPoint (prev : Str) (c : Char) : Bool :=
  pyIsSpace c &&
  (match prev with
   | p1 :: _ => p1 = '.' || p1 = '?' || p1 = '!'
   | [] => false) &&
  !(match prev with
    | _ :: p2 :: p3 :: p4 :: _ => isWordC p4 && p3 = '.' && isWordC p2
    | _ => false) &&
  !(match prev with
    | p1 :: p2 :: p3 :: _ => p1 = '.' && p3.isUpper && p2.isLower
    | _ => false)

/-- Regex `re.split` on the sentence pattern: scan the text, cutting (and dropping
the whitespace) at every split point.  `prev` is the reversed processed
portion and `cur` the reversed current chunk. -/
def splitScan : Str → Str → Str → List Str
  | [], _, cur => [cur.reverse]
  | c :: rest, prev, cur =>
    if isSplitPoint prev c then cur.reverse :: splitScan rest (c :: prev) []
    else splitScan rest (c :: prev) (c :: cur)

/-- Source `SimpleSummarizer._split_into_sentences` (lines 121-138): regex split,
then keep the stripped chunks longer than 20 characters. -/
def SimpleSummarizer.split_into_sentences (text : Str) : List Str :=
  ((splitScan text [] []).map pyStrip).filter (fun s => 20 < s.length)

/-- Python `str.split()` (no separator): split on whitespace runs, dropping
empty pieces.  `cur` is the reversed current word. -/
def splitWsAux : Str → Str → List Str
  | [], cur => if cur = [] then [] else [cur.reverse]
  | c :: rest, cur =>
    if pyIsSpace c then
      if cur = [] then splitWsAux rest [] else cur.reverse :: splitWsAux rest []
    else splitWsAux rest (c :: cur)

/-- Python `str.split()`. -/
def splitWs (s : Str) : List Str := splitWsAux s []

/-- Source `SimpleSummarizer._get_words` (lines 188-204): replace non-word,
non-space characters by spaces, split on whitespace, keep words longer
than 3 characters. -/
def SimpleSummarizer.get_words (text : Str) : List Str :=
  (splitWs (text.map (fun c => if isWordC c || pyIsSpace c then c else ' '))).filter
    (fun w => 3 < w.length)

/-- Lexicographic order on the character lists, matching Python `str` `<`. -/
def strLt : Str → Str → Bool
  | [], [] => false
  | [], _ :: _ => true
  | _ :: _, [] => false
  | a :: as, b :: bs => a < b || (a = b && strLt as bs)

/-- Descending comparison on Python `(score, sentence)` tuples:
`list.sort(reverse=True)` puts `x` before `y` exactly when `x ≥ y` in the
tuple order, and is stable on equal tuples. -/
def pairGe (x y : ℚ × Str) : Bool :=
  decide (y.1 < x.1) || (decide (x.1 = y.1) && (strLt y.2 x.2 || y.2 = x.2))

/-- Source `SimpleSummarizer._select_important_sentences` (lines 140-186).  `count`
is `self.sentences_count` (always 3 in this repository; the Python slice
`[:count - 2]` agrees with truncated subtraction whenever `count ≥ 2`).
Keeps the first sentence, scores the interior sentences of length ≥ 30 by
`0.5 * title-overlap + 0.5 * 1/(position+1)`, sorts the scored pairs
descending, takes the top `count - 2`, appends the last sentence when more
than two sentences exist, and truncates to `count`. -/
def select_important_sentences (count : Nat) (sentences : List Str) (title : Str) : List Str :=
  if sentences.length ≤ count then sentences
  else
    let title_words := (SimpleSummarizer.get_words (lowerStr title)).dedup
    let interior := (sentences.drop 1).dropLast
    let scored := (interior.enumFrom 1).filterMap (fun p =>
      if p.2.length < 30 then none
      else
        let sentence_words := (SimpleSummarizer.get_words (lowerStr p.2)).dedup
        let relevance : ℚ := ((title_words.filter (· ∈ sentence_words)).length : ℚ)
          / (max 1 title_words.length : ℚ)
        let position_score : ℚ := 1 / ((p.1 : ℚ) + 1)
        some (0.5 * relevance + 0.5 * position_score, p.2))
    let selected := sentences.headI :: (scored.mergeSort pairGe |>.take (count - 2)).map Prod.snd
    let selected := if 2 < sentences.length then selected ++ [sentences.getLastD []] else selected
    selected.take count

/-- The body of `SimpleSummarizer._generate_summary` (lines 40-101) up to its
outer `except`: every raising construct is inside the `try`, and the only one
that can actually raise is the `article.description` access (see
`contentOrDescription`). -/
def SimpleSummarizer.generate_summary_checked (count : Nat) (a : Article) : Except PyErr Str := do
  let text ← contentOrDescription a
  -- the `or ""` of line 52 is unreachable: an empty `content` raises first
  if text = [] ∨ (pyStrip text).length < 50 then return fallbackStr a
  else if text.length ≤ 250 then return text
  else
    let summary ←
      if 1000 < text.length then do
        let sentences := SimpleSummarizer.split_into_sentences (SimpleSummarizer.clean_text text)
        if sentences = [] then return text.take 250 ++ "...".data
        pure (joinSpace (select_important_sentences count sentences a.title))
      else do
        let sentences := SimpleSummarizer.split_into_sentences (SimpleSummarizer.clean_text text)
        if sentences = [] then return text.take 250 ++ "...".data
        pure (joinSpace (sentences.take 3))
    let summary := if 250 < summary.length then summary.take 247 ++ "...".data else summary
    if summary = [] ∨ (pyStrip summary).length < 20 then return fallbackStr a
    return summary

/-- Source `SimpleSummarizer._generate_summary` including its outer exception
handler (lines 99-101), which returns the title fallback. -/
def SimpleSummarizer.generate_summary (count : Nat) (a : Article) : Str :=
  match SimpleSummarizer.generate_summary_checked count a with
  | .ok s => s
  | .error _ => fallbackStr a

/-- Source `SimpleSummarizer.summarize_articles` (lines 20-38): set every article's
summary; the per-article handler would assign the title fallback, but
`_generate_summary` already catches everything internally. -/
def SimpleSummarizer.summarize_articles (count : Nat) (arts : List Article) : List Article :=
  arts.map (fun a => { a with summary := SimpleSummarizer.generate_summary count a })

/-- Source `SimpleArticleProcessor.process_articles` (lines 288-318): summarize all
articles, then write the heuristic importance score on each. -/
def SimpleArticleProcessor.process_articles (count : Nat) (arts : List Article) : List Article :=
  (SimpleSummarizer.summarize_articles count arts).map
    (fun a => { a with importance_score := some (rate_importance a) })

/-- Source `LocalSummarizer._clean_text` (`local_summarizer.py` lines 92-111):
collapse whitespace, strip, remove URLs, then drop every character outside
`[\w\s.,!?:;()\[\]{}"'-]`. -/
def LocalSummarizer.clean_text (text : Str) : Str :=
  (stripUrls (pyStrip (collapseWs text))).filter (fun c =>
    isWordC c || pyIsSpace c ||
    c ∈ ['.', ',', '!', '?', ':', ';', '(', ')', '[', ']',
         Char.ofNat 123, Char.ofNat 125, Char.ofNat 34, apos, '-'])

/-- Source `LocalSummarizer._generate_summary` (lines 58-90).  The sumy pipeline
(`PlaintextParser`/`Tokenizer`/`LsaSummarizer`, external to this repository)
is the oracle: given the cleaned content it yields the selected sentence
strings or raises.  Everything after the length guard sits inside the `try`,
so an oracle failure produces the literal
`"Failed to generate summary for '{title}'."`. -/
def LocalSummarizer.generate_summary (sumy : Str → Except PyErr (List Str))
    (a : Article) : Str :=
  if a.content = [] ∨ a.content.length < 100 then
    a.title ++ " - No content available for summarization.".data
  else
    match (do
      let sentences ← sumy (LocalSummarizer.clean_text a.content)
      let summary := joinSpace sentences
      pure (if 250 < summary.length then summary.take 247 ++ "...".data else summary)
      : Except PyErr Str) with
    | .ok s => s
    | .error _ => "Failed to generate summary for ".data ++ [apos] ++ a.title ++ [apos] ++ ".".data

/-- Source `LocalSummarizer.summarize_articles` (lines 38-56): sets each summary; its
per-article handler (which would assign the title fallback) is unreachable
because `_generate_summary` catches every failure itself. -/
def LocalSummarizer.summarize_articles (sumy : Str → Except PyErr (List Str))
    (arts : List Article) : List Article :=
  arts.map (fun a => { a with summary := LocalSummarizer.generate_summary sumy a })

/-- Source `LocalArticleProcessor.process_articles` (lines 195-226): summarize, then
score each article with `_rate_importance` (identical to `rate_importance`). -/
def LocalArticleProcessor.process_articles (sumy : Str → Except PyErr (List Str))
    (arts : List Article) : List Article :=
  (LocalSummarizer.summarize_articles sumy arts).map
    (fun a => { a with importance_score := some (rate_importance a) })

/-- The two HTTP interactions of `OllamaProcessor`
(`POST /api/generate` for the summary and the rating prompts), abstracted as
response texts per article; `.error` models any request/decode failure. -/
structure OllamaOracle where
  genResp : Article → Except PyErr Str
  rateResp : Article → Except PyErr Str

/-- Source `OllamaProcessor._generate_summary` (`ollama_processor.py` lines 119-182).
The `article.content or article.description` access (line 130) sits outside
the `try`, so its `AttributeError` propagates; every HTTP failure is caught
and yields the title fallback.  Lines 135-136 only truncate the prompt text,
which the oracle abstracts away. -/
def OllamaProcessor.generate_summary (o : OllamaOracle) (a : Article) : Except PyErr Str := do
  let text ← contentOrDescription a
  if text = [] then return fallbackStr a
  match o.genResp a with
  | .error _ => return fallbackStr a
  | .ok r =>
    let summary := pyStrip r
    if summary = [] ∨ summary.length < 20 then return fallbackStr a
    else if 250 < summary.length then return summary.take 247 ++ "...".data
    else return summary

/-- Value of a decimal digit run. -/
def digitsVal (l : Str) : ℕ := l.foldl (fun n c => n * 10 + (c.toNat - 48)) 0

/-- Parse the numeric token starting at a digit, per the regex
`(\d+\.\d+|\d+)`: a greedy digit run, extended across a dot only when at
least one digit follows.  Python's `float` of the token is modelled exactly
in `ℚ`. -/
def parseNumAt (l : Str) : ℚ :=
  let d1 := l.takeWhile Char.isDigit
  match l.dropWhile Char.isDigit with
  | '.' :: r2 =>
    let d2 := r2.takeWhile Char.isDigit
    if d2 = [] then (digitsVal d1 : ℚ)
    else (digitsVal d1 : ℚ) + (digitsVal d2 : ℚ) / (10 : ℚ) ^ d2.length
  | _ => (digitsVal d1 : ℚ)

/-- Regex `re.search(r'(\d+\.\d+|\d+)', text)`: the leftmost numeric token. -/
def firstNumericToken : Str → Option ℚ
  | [] => none
  | c :: rest => if c.isDigit then some (parseNumAt (c :: rest)) else firstNumericToken rest

/-- Source `OllamaProcessor._rate_importance` (lines 184-257).  When the title is
non-empty, line 195 evaluates `article.content or article.description`, which
raises for empty content; HTTP or parse failures inside the `try` yield the
0.5 default, and a parsed rating is clamped into `[0.0, 1.0]`. -/
def OllamaProcessor.rate_importance (o : OllamaOracle) (a : Article) : Except PyErr ℚ := do
  if a.title = [] then return 0.5
  let cd ← contentOrDescription a
  if cd = [] then return 0.5
  match o.rateResp a with
  | .error _ => return 0.5
  | .ok r =>
    match firstNumericToken (pyStrip r) with
    | some rating => return max 0 (min 1 rating)
    | none => return 0.5

/-- One iteration of the loop in `OllamaProcessor.process_articles` (lines
99-115).  On an exception the handler runs: `article.summary is None` is never
true for the pydantic `str` field (default `""`), so the summary is left as it
was; a missing score is set to 0.5. -/
def OllamaProcessor.processOne (o : OllamaOracle) (a : Article) : Article :=
  match OllamaProcessor.generate_summary o a with
  | .error _ =>
    { a with importance_score := some (a.importance_score.getD 0.5) }
  | .ok s =>
    let a1 := { a with summary := s }
    match OllamaProcessor.rate_importance o a1 with
    | .error _ => { a1 with importance_score := some (a1.importance_score.getD 0.5) }
    | .ok q => { a1 with importance_score := some q }

/-- Source `OllamaProcessor.process_articles` (lines 80-117). -/
def OllamaProcessor.process_articles (available : Bool) (o : OllamaOracle)
    (fallback : Option (List Article → List Article)) (arts : List Article) : List Article :=
  if !available then
    match fallback with
    | some f => f arts
    | none => arts
  else arts.map (OllamaProcessor.processOne o)

/-- Expression `self.model_name.split(':')[0] if ':' in self.model_name else self.model_name`. -/
def baseModelName (name : Str) : Str := name.takeWhile (· ≠ ':')

/-- Source `OllamaProcessor._check_availability` (lines 40-78).  `tags` is the
`GET /api/tags` outcome: `.error` for an unreachable server, a non-200
status, or a decode failure, `.ok models` for the installed model names.
Returns the availability flag and the (possibly substituted) model name:
exact match, then same-family match (`base:` tag or bare base name), then the
first installed model, else unavailable. -/
def OllamaProcessor.check_availability (tags : Except PyErr (List Str))
    (model_name : Str) : Bool × Str :=
  match tags with
  | .error _ => (false, model_name)
  | .ok models =>
    if model_name ∈ models then (true, model_name)
    else
      let base := baseModelName model_name
      match models.find? (fun m => isPrefOf (base ++ [':']) m || m = base) with
      | some m => (true, m)
      | none =>
        match models with
        | m0 :: _ => (true, m0)
        | [] => (false, model_name)

/-- Source `OllamaArticleProcessor.process_articles` (lines 286-310): when the probe
marked the processor available, delegate to `OllamaProcessor`; otherwise give
every article lacking a summary the title fallback and every article lacking
a score the 0.5 default, and return normally. -/
def OllamaArticleProcessor.process_articles (available : Bool) (o : OllamaOracle)
    (arts : List Article) : List Article :=
  if available then OllamaProcessor.process_articles available o none arts
  else
    arts.map (fun a =>
      let a1 := if a.summary = [] then { a with summary := fallbackStr a } else a
      { a1 with importance_score := some (a1.importance_score.getD 0.5) })

/-- The backend tiers of the adaptive processor, in its priority order. -/
inductive Stage
  | ollama
  | openai
  | localSumy
  | simple
  deriving DecidableEq, Repr

/-- The four processor handles held by `AdaptiveArticleProcessor`
(`adaptive_processor.py` lines 24-58).  Each optional tier is the batch call
the orchestrator wraps in `try` (`none` models a handle whose construction
failed or was disabled); `simple_processor` is mandatory.  The OpenAI entry
stands for `_process_with_openai` (lines 168-190), whose HTTP interactions
stay behind this interface. -/
structure AdaptiveTiers where
  ollama_processor : Option (List Article → Except PyErr (List Article))
  openai_processor : Option (List Article → Except PyErr (List Article))
  local_processor : Option (List Article → Except PyErr (List Article))
  simple_processor : List Article → Except PyErr (List Article)

/-- The score patch applied after a successful Ollama, local, or simple tier
(lines 83-86, 124-128, 143-147): a `None` or non-positive score becomes 0.7. -/
def verify_score (a : Article) : Article :=
  match a.importance_score with
  | none => { a with importance_score := some 0.7 }
  | some s => if s ≤ 0 then { a with importance_score := some 0.7 } else a

/-- The final sweep (lines 160-163): only a still-`None` score becomes 0.7. -/
def final_check (a : Article) : Article :=
  match a.importance_score with
  | none => { a with importance_score := some 0.7 }
  | some _ => a

/-- The terminal fallback (lines 153-156): title-derived summary and score 0.6. -/
def terminal_fallback (a : Article) : Article :=
  { a with summary := fallbackStr a, importance_score := some 0.6 }

/-- Source `AdaptiveArticleProcessor.process_articles` after the Ollama tier (lines
101-166): the OpenAI, local and simple tiers over the pending articles,
followed by the final score sweep.  A tier that raises leaves the pending
batch for the next tier (the source keeps the same list object; partial
mutation by a failed tier is not modelled — the spec itself leaves that case
open).  The returned trace lists the tiers whose batch call was made. -/
def processRemaining (t : AdaptiveTiers) (result failed : List Article)
    (trace : List Stage) : List Article × List Stage :=
  let s1 :=
    if failed.isEmpty then (result, failed, trace)
    else match t.openai_processor with
      | none => (result, failed, trace)
      | some f =>
        match f failed with
        | .ok s => (result ++ s, ([] : List Article), trace ++ [Stage.openai])
        | .error _ => (result, failed, trace ++ [Stage.openai])
  let s2 :=
    if s1.2.1.isEmpty then s1
    else match t.local_processor with
      | none => s1
      | some f =>
        match f s1.2.1 with
        | .ok s => (s1.1 ++ s.map verify_score, ([] : List Article), s1.2.2 ++ [Stage.localSumy])
        | .error _ => (s1.1, s1.2.1, s1.2.2 ++ [Stage.localSumy])
  let s3 :=
    if s2.2.1.isEmpty then (s2.1, s2.2.2)
    else match t.simple_processor s2.2.1 with
      | .ok s => (s2.1 ++ s.map verify_score, s2.2.2 ++ [Stage.simple])
      | .error _ => (s2.1 ++ s2.2.1.map terminal_fallback, s2.2.2 ++ [Stage.simple])
  (s3.1.map final_check, s3.2)

/-- Source `AdaptiveArticleProcessor.process_articles` (lines 60-166).  An empty
batch returns immediately.  If the Ollama handle exists its batch call is
attempted: on success the 0.7 score patch is applied and the function returns
at once (line 92) — the final sweep is not reached; on an exception the whole
batch falls through.  The second component records which tiers were called. -/
def AdaptiveArticleProcessor.process_articles (t : AdaptiveTiers)
    (articles : List Article) : List Article × List Stage :=
  if articles.isEmpty then ([], [])
  else
    match t.ollama_processor with
    | some f =>
      match f articles with
      | .ok processed => (processed.map verify_score, [Stage.ollama])
      | .error _ => processRemaining t [] articles [Stage.ollama]
    | none => processRemaining t [] articles []

/-- The Ollama tier as the adaptive processor sees it: the wrapper
`OllamaArticleProcessor.process_articles` catches every per-article failure
and its unavailable branch cannot fail either, so the batch call always
returns normally. -/
def ollamaTier (available : Bool) (o : OllamaOracle) :
    List Article → Except PyErr (List Article) :=
  fun arts => .ok (OllamaArticleProcessor.process_articles available o arts)

/-- Claim-side predicate of C9: the lowercased `title + " " + content`
contains at least one primary JVM keyword or at least three secondary
keywords (entries counted as listed, so duplicated entries count twice), and
fewer than two excluded keywords. -/
def jvm_relevant (a : Article) : Prop :=
  (1 ≤ countKw primary_jvm_keywords (titleContent a)
    ∨ 3 ≤ countKw secondary_jvm_keywords (titleContent a))
  ∧ countKw excluded_keywords (titleContent a) < 2

instance jvm_relevant_dec (a : Article) : Decidable (jvm_relevant a) := by
  unfold jvm_relevant; infer_instance

/-- Concrete article for the C6 counterexample: two generic terms, one
technical indicator, no high-value keyword. -/
def aGenCx : Article :=
  { title := "best deals sale tutorial".data, url := [], source_name := "x".data }

/-- Concrete article for the C6 witness: generic terms only. -/
def aGenW : Article :=
  { title := "movie best deals sale".data, url := [], source_name := "x".data }

/-- Concrete article for C4: 260 characters of two-letter "sentences", every
regex chunk shorter than 21 characters, so the no-sentences branch fires. -/
def a253 : Article :=
  { title := "T".data, url := [], source_name := "S".data,
    content := (List.replicate 65 "ab. ".data).flatten }

/-- Oracle for C1: the model host would answer both prompts successfully. -/
def oC1 : OllamaOracle :=
  { genResp := fun _ => .ok "A sufficiently long generated summary of the article.".data,
    rateResp := fun _ => .ok "0.8".data }

/-- Concrete article for C1: empty content (and the default empty summary,
exactly as fetched articles enter the pipeline). -/
def aEmptyContent : Article :=
  { title := "T".data, url := "u".data, source_name := "S".data }

/-- Tier configuration for C1: Ollama available and answering. -/
def tiersC1 : AdaptiveTiers :=
  { ollama_processor := some (ollamaTier true oC1),
    openai_processor := none,
    local_processor := none,
    simple_processor := fun l => .ok l }

/-- Concrete article for the C7 counterexample: 120 characters of content. -/
def aLongContent : Article :=
  { title := "T".data, url := [], source_name := "S".data, content := List.replicate 120 'a' }

/-- A sumy pipeline that raises on every input. -/
def failSumy : Str → Except PyErr (List Str) := fun _ => .error .runtime

/-- A tier that returns its batch unchanged. -/
def oIdTier : List Article → Except PyErr (List Article) := fun l => .ok l

/-- Concrete article for the C3 witness. -/
def aW3 : Article := { title := "w3".data, url := [], source_name := "s3".data }

/-- Tier configuration for the C3 witness. -/
def tiersC3 : AdaptiveTiers :=
  { ollama_processor := some oIdTier, openai_processor := none,
    local_processor := none, simple_processor := fun l => .ok l }

/-- Tier configuration for the C8 witness: no optional tier constructed and a
simple backend that raises. -/
def tiersC8 : AdaptiveTiers :=
  { ollama_processor := none, openai_processor := none,
    local_processor := none, simple_processor := fun _ => .error .runtime }

/-- Concrete article for the C8 witness. -/
def aW8 : Article := { title := "w8".data, url := [], source_name := "s8".data }

/-- An Ollama oracle whose every request fails (service unreachable). -/
def oFail : OllamaOracle :=
  { genResp := fun _ => .error .runtime, rateResp := fun _ => .error .runtime }

/-- Concrete article for the C2 counterexample. -/
def aC2 : Article := { title := "T2".data, url := [], source_name := "S2".data }

/-- Tier configuration for the C2 counterexample: the availability probe hit
an unreachable server, yet the tier handle exists; the cloud tier is present
and would succeed. -/
def tiersC2 : AdaptiveTiers :=
  { ollama_processor := some (ollamaTier
      (OllamaProcessor.check_availability (.error .runtime) "llama3".data).1 oFail),
    openai_processor := some (fun l => .ok l),
    local_processor := none,
    simple_processor := fun l => .ok l }

/-- Tier configuration for the C2 witness. -/
def tiersC2W : AdaptiveTiers :=
  { ollama_processor := some (ollamaTier
      (OllamaProcessor.check_availability (.error .runtime) "llama3".data).1 oFail),
    openai_processor := none,
    local_processor := none,
    simple_processor := fun l => .ok l }

/-- Concrete article for the C2 witness. -/
def aW2 : Article := { title := "w2".data, url := [], source_name := "s2".data }

/-- Concrete article for the C9 witness. -/
def aW9 : Article := { title := "Java 21 released".data, url := [], source_name := "s9".data }

/-- Helper: the last element of a list, as the suffix obtained by dropping
all but one element. -/
theorem drop_penult (v : Str) : v.drop (v.length - 1) = v.getLast?.toList := by
  induction v with
  | nil => rfl
  | cons a t ih =>
    cases t with
    | nil => rfl
    | cons b t2 =>
      have hlen : (a :: b :: t2).length - 1 = t2.length + 1 := by simp
      rw [hlen, List.getLast?_cons_cons]
      show (b :: t2).drop t2.length = (b :: t2).getLast?.toList
      have hlen2 : (b :: t2).length - 1 = t2.length := by simp
      rw [← hlen2]
      exact ih

/-- Helper: a needle at the start of a haystack stays there under appending. -/
theorem isPrefOf_append (n h m : Str) (hp : isPrefOf n h = true) :
    isPrefOf n (h ++ m) = true := by
  induction n generalizing h with
  | nil => rfl
  | cons a as ih =>
    cases h with
    | nil => simp [isPrefOf] at hp
    | cons b bs =>
      simp only [isPrefOf, Bool.and_eq_true, beq_iff_eq] at hp
      simp only [List.cons_append, isPrefOf, Bool.and_eq_true, beq_iff_eq]
      exact ⟨hp.1, ih bs hp.2⟩

/-- Helper: the empty needle occurs in every haystack. -/
theorem subStr_nil_needle (m : Str) : subStr [] m = true := by
  cases m <;> rfl

/-- Helper: substring occurrence is preserved by appending to the haystack. -/
theorem subStr_append (n h m : Str) (hs : subStr n h = true) :
    subStr n (h ++ m) = true := by
  induction h with
  | nil =>
    simp only [subStr, List.isEmpty_iff] at hs
    subst hs
    exact subStr_nil_needle m
  | cons c h2 ih =>
    simp only [subStr, Bool.or_eq_true] at hs
    rcases hs with hp | hrest
    · show (isPrefOf n (c :: (h2 ++ m)) || subStr n (h2 ++ m)) = true
      have hq := isPrefOf_append n (c :: h2) m hp
      simp only [List.cons_append] at hq
      simp [hq]
    · show (isPrefOf n (c :: (h2 ++ m)) || subStr n (h2 ++ m)) = true
      simp [ih hrest]

/-- Helper: a keyword hit survives appending to the text. -/
theorem anyKw_append (kws : List Str) (h m : Str) (ha : anyKw kws h = true) :
    anyKw kws (h ++ m) = true := by
  induction kws with
  | nil => simp [anyKw] at ha
  | cons k rest ih =>
    simp only [anyKw, Bool.or_eq_true] at ha ⊢
    exact ha.imp (subStr_append k h m) ih

/-- Helper: when no keyword occurs, the keyword count is zero. -/
theorem countKw_zero_of_anyKw_false (kws : List Str) (t : Str)
    (ha : anyKw kws t = false) : countKw kws t = 0 := by
  induction kws with
  | nil => rfl
  | cons k rest ih =>
    simp only [anyKw, Bool.or_eq_false_iff] at ha
    simp [countKw, ha.1, ih ha.2]

/-- Helper: keyword counting is additive over the keyword list. -/
theorem countKw_append_list (k1 k2 : List Str) (t : Str) :
    countKw (k1 ++ k2) t = countKw k1 t + countKw k2 t := by
  induction k1 with
  | nil => simp [countKw]
  | cons k rest ih => simp [countKw, ih]; omega

/-- Helper: the scorer text is the lowercased title followed by the
lowercased space-prefixed content. -/
theorem titleContent_decomp (a : Article) :
    titleContent a = lowerStr a.title ++ lowerStr (' ' :: a.content) := by
  simp [titleContent, lowerStr]

/-- C1 (code bug evaluation).  The claim says every article returned by
`AdaptiveArticleProcessor.process_articles` has a non-empty summary whatever
the backends do.  On a batch holding an article with empty content while the
Ollama tier is available, `OllamaProcessor._generate_summary` evaluates
`article.content or article.description` and raises `AttributeError` (the
pydantic model has no `description` field); the per-article handler only
assigns a fallback when `article.summary is None`, which a pydantic `str`
field never is, so the article leaves the pipeline with summary `""` while
the tier reports success and short-circuits the chain. -/
theorem C1_empty_summary_escapes :
    (AdaptiveArticleProcessor.process_articles tiersC1 [aEmptyContent]).1
      = [{ aEmptyContent with importance_score := some 0.5 }]
    ∧ ∀ b ∈ (AdaptiveArticleProcessor.process_articles tiersC1 [aEmptyContent]).1,
        b.summary = [] := by
  have h1 : OllamaProcessor.processOne oC1 aEmptyContent
      = { aEmptyContent with importance_score := some 0.5 } := rfl
  have h2 : verify_score { aEmptyContent with importance_score := some 0.5 }
      = { aEmptyContent with importance_score := some 0.5 } := by
    simp only [verify_score]
    norm_num
  have hres : (AdaptiveArticleProcessor.process_articles tiersC1 [aEmptyContent]).1
      = [{ aEmptyContent with importance_score := some 0.5 }] := by
    show [verify_score (OllamaProcessor.processOne oC1 aEmptyContent)] = _
    rw [h1, h2]
  refine ⟨hres, ?_⟩
  intro b hb
  rw [hres] at hb
  rw [List.mem_singleton.mp hb]
  rfl

/-- C2 (counterexample).  The claim says that with the model service
unreachable at construction time the chain falls through so the Cloud tier is
the first one attempted.  Here the probe hit an unreachable server (so the
backend is marked unavailable), the Cloud tier is present and would succeed,
yet the trace shows only the Local-Host tier was invoked: its wrapper filled
in fallback summaries and 0.5 scores and returned successfully, so the Cloud
tier was never attempted. -/
theorem C2_counterexample :
    (OllamaProcessor.check_availability (.error .runtime) "llama3".data).1 = false
    ∧ (AdaptiveArticleProcessor.process_articles tiersC2 [aC2]).2 = [Stage.ollama]
    ∧ Stage.openai ∉ (AdaptiveArticleProcessor.process_articles tiersC2 [aC2]).2
    ∧ (AdaptiveArticleProcessor.process_articles tiersC2 [aC2]).1
      = [{ aC2 with summary := fallbackStr aC2, importance_score := some 0.5 }] := by
  have hrun : AdaptiveArticleProcessor.process_articles tiersC2 [aC2]
      = ([{ aC2 with summary := fallbackStr aC2, importance_score := some 0.5 }].map verify_score,
         [Stage.ollama]) := rfl
  have hvs : verify_score { aC2 with summary := fallbackStr aC2, importance_score := some 0.5 }
      = { aC2 with summary := fallbackStr aC2, importance_score := some 0.5 } := by
    simp only [verify_score]
    norm_num
  refine ⟨rfl, ?_, ?_, ?_⟩
  · rw [hrun]
  · rw [hrun]; simp
  · rw [hrun]
    show [verify_score _] = _
    rw [hvs]

/-- C2 (amended).  If the service is unreachable (or reachable with no
installed model) at construction time, the backend is marked unavailable and
the model service is never contacted (the tier behaves identically under any
oracle); but `process_articles` still invokes the Local-Host tier wrapper,
which assigns the title fallback to articles lacking a summary and a 0.5
score to articles lacking one and returns successfully, so the chain
short-circuits at the first tier and the Cloud tier is never attempted. -/
theorem C2_amended_unavailable_short_circuits
    (e : PyErr) (model : Str) (o o2 : OllamaOracle)
    (t : AdaptiveTiers) (arts : List Article) (hne : arts ≠ [])
    (hol : t.ollama_processor
      = some (ollamaTier (OllamaProcessor.check_availability (.error e) model).1 o)) :
    (OllamaProcessor.check_availability (.error e) model).1 = false
    ∧ (OllamaProcessor.check_availability (.ok []) model).1 = false
    ∧ ollamaTier (OllamaProcessor.check_availability (.error e) model).1 o
        = ollamaTier false o2
    ∧ AdaptiveArticleProcessor.process_articles t arts
        = ((arts.map (fun a =>
            let a1 := if a.summary = [] then { a with summary := fallbackStr a } else a
            { a1 with importance_score := some (a1.importance_score.getD 0.5) })).map
              verify_score,
           [Stage.ollama]) := by
  refine ⟨rfl, rfl, rfl, ?_⟩
  rw [AdaptiveArticleProcessor.process_articles, hol]
  have hArtsEmpty : arts.isEmpty = false := by
    cases arts with
    | nil => exact absurd rfl hne
    | cons a l => rfl
  simp only [hArtsEmpty, Bool.false_eq_true, if_false]
  rfl

/-- Witness for C2: the amended statement at a concrete unreachable-service
configuration and a one-article batch. -/
theorem C2_witness :
    (OllamaProcessor.check_availability (.error .runtime) "llama3".data).1 = false
    ∧ (OllamaProcessor.check_availability (.ok []) "llama3".data).1 = false
    ∧ ollamaTier (OllamaProcessor.check_availability (.error .runtime) "llama3".data).1 oFail
        = ollamaTier false oFail
    ∧ AdaptiveArticleProcessor.process_articles tiersC2W [aW2]
        = (([aW2].map (fun a =>
            let a1 := if a.summary = [] then { a with summary := fallbackStr a } else a
            { a1 with importance_score := some (a1.importance_score.getD 0.5) })).map
              verify_score,
           [Stage.ollama]) :=
  C2_amended_unavailable_short_circuits .runtime "llama3".data oFail oFail tiersC2W [aW2]
    (by simp) rfl

/-- C3.  If the Ollama tier handle exists and its batch call returns without
raising, the adaptive processor returns immediately with the score-patched
result and the Cloud, Local-Extractive and Simple tiers are never invoked. -/
theorem C3_ollama_short_circuit (t : AdaptiveTiers) (arts res : List Article)
    (f : List Article → Except PyErr (List Article))
    (hne : arts ≠ []) (hol : t.ollama_processor = some f) (hok : f arts = .ok res) :
    AdaptiveArticleProcessor.process_articles t arts = (res.map verify_score, [Stage.ollama])
    ∧ Stage.openai ∉ (AdaptiveArticleProcessor.process_articles t arts).2
    ∧ Stage.localSumy ∉ (AdaptiveArticleProcessor.process_articles t arts).2
    ∧ Stage.simple ∉ (AdaptiveArticleProcessor.process_articles t arts).2 := by
  have heq : AdaptiveArticleProcessor.process_articles t arts
      = (res.map verify_score, [Stage.ollama]) := by
    rw [AdaptiveArticleProcessor.process_articles, hol]
    simp [hne, hok]
  refine ⟨heq, ?_, ?_, ?_⟩ <;> rw [heq] <;> simp

/-- Witness for C3: a successful identity tier on a one-article batch. -/
theorem C3_witness :
    AdaptiveArticleProcessor.process_articles tiersC3 [aW3]
      = ([aW3].map verify_score, [Stage.ollama]) :=
  (C3_ollama_short_circuit tiersC3 [aW3] [aW3] oIdTier (by simp) rfl rfl).1

set_option maxRecDepth 10000 in
/-- C4 (code bug evaluation).  The claim bounds every backend summary by 250
characters, but the no-sentences branch of `SimpleSummarizer._generate_summary`
(lines 72 and 86) returns `text[:250] + "..."` — 253 characters — instead of
the `text[:247] + "..."` convention used elsewhere in the same function. -/
theorem C4_simple_backend_253_char_summary :
    SimpleSummarizer.generate_summary 3 a253 = a253.content.take 250 ++ "...".data
    ∧ (SimpleSummarizer.generate_summary 3 a253).length = 253
    ∧ ∀ b ∈ SimpleSummarizer.summarize_articles 3 [a253], 250 < b.summary.length := by
  refine ⟨by decide, by decide, by decide⟩

/-- C5.  The heuristic importance scorer depends only on title, content and
source name; its clamped result lies in `[0.0, 1.0]`; and for the title
"Java 21 Released with Virtual Threads" with empty content the pre-clamp
score is at least `0.5 + 0.1 + 0.04` for every source name. -/
theorem C5_heuristic_scorer_pure_clamped :
    (∀ a b : Article, a.title = b.title → a.content = b.content →
      a.source_name = b.source_name → rate_importance a = rate_importance b)
    ∧ (∀ a : Article, 0 ≤ rate_importance a ∧ rate_importance a ≤ 1)
    ∧ (∀ a : Article, a.title = "Java 21 Released with Virtual Threads".data →
      a.content = [] → 0.5 + 0.1 + 0.04 ≤ rate_importance_raw a) := by
  refine ⟨?_, ?_, ?_⟩
  · intro a b h1 h2 h3
    simp only [rate_importance, rate_importance_raw, titleContent, h1, h2, h3]
  · intro a
    exact ⟨le_max_left 0 _, max_le (by norm_num) (min_le_left 1 _)⟩
  · intro a h1 h2
    have htc : titleContent a =
        lowerStr ("Java 21 Released with Virtual Threads".data ++ [' ']) := by
      rw [titleContent, h1, h2]
    simp only [rate_importance_raw, htc, h1]
    rw [show countKw technical_indicators
          (lowerStr ("Java 21 Released with Virtual Threads".data ++ [' '])) = 0 from by decide,
        show countKw high_value_topics
          (lowerStr ("Java 21 Released with Virtual Threads".data ++ [' '])) = 3 from by decide,
        show anyKw high_value_topics
          (lowerStr "Java 21 Released with Virtual Threads".data) = true from by decide,
        show anyKw super_boost_terms
          (lowerStr ("Java 21 Released with Virtual Threads".data ++ [' '])) = true from by decide,
        show countKw generic_terms
          (lowerStr ("Java 21 Released with Virtual Threads".data ++ [' '])) = 0 from by decide]
    norm_num [min_def]
    split_ifs <;> norm_num

/-- Witness for C5: purity on two articles differing only in URL, the bounds,
and the Java-21 lower bound at a concrete source. -/
theorem C5_witness :
    rate_importance { title := "t".data, url := "u1".data, source_name := "s".data }
      = rate_importance { title := "t".data, url := "u2".data, source_name := "s".data }
    ∧ (0 ≤ rate_importance { title := "t".data, url := "u1".data, source_name := "s".data }
       ∧ rate_importance { title := "t".data, url := "u1".data, source_name := "s".data } ≤ 1)
    ∧ 0.5 + 0.1 + 0.04 ≤ rate_importance_raw
        { title := "Java 21 Released with Virtual Threads".data, url := [],
          source_name := "x".data } :=
  ⟨C5_heuristic_scorer_pure_clamped.1 _ _ rfl rfl rfl,
   C5_heuristic_scorer_pure_clamped.2.1 _,
   C5_heuristic_scorer_pure_clamped.2.2 _ rfl rfl⟩

/-- C6 (counterexample).  The claim says two generic terms and no high-value
keyword force a score of at most 0.3, but a single technical indicator
("tutorial") pushes the score to 0.32: the generic penalty is additive with
the technical, source and super-boost bonuses, not dominant over them. -/
theorem C6_counterexample :
    2 ≤ countKw (["best deals", "sale", "movie"].map String.data) (titleContent aGenCx)
    ∧ anyKw high_value_topics (titleContent aGenCx) = false
    ∧ ¬ rate_importance aGenCx ≤ 0.3 := by
  refine ⟨by decide, by decide, ?_⟩
  have hval : rate_importance aGenCx = 0.32 := by
    simp only [rate_importance, rate_importance_raw]
    rw [show countKw technical_indicators (titleContent aGenCx) = 1 from by decide,
        show countKw high_value_topics (titleContent aGenCx) = 0 from by decide,
        show anyKw jvm_specific_sources (lowerStr aGenCx.source_name) = false from by decide,
        show anyKw high_value_topics (lowerStr aGenCx.title) = false from by decide,
        show anyKw super_boost_terms (titleContent aGenCx) = false from by decide,
        show countKw generic_terms (titleContent aGenCx) = 2 from by decide]
    norm_num [min_def, max_def]
  rw [hval]
  norm_num

/-- C6 (amended).  An article whose text contains at least two of
{"best deals", "sale", "movie"}, no high-value keyword, no technical
indicator, none of the super-boost phrases, and whose source is not a
JVM-specific publication, scores at most 0.3. -/
theorem C6_amended_no_bonus_generic (a : Article)
    (hgen : 2 ≤ countKw (["best deals", "sale", "movie"].map String.data) (titleContent a))
    (hhv : anyKw high_value_topics (titleContent a) = false)
    (htech : anyKw technical_indicators (titleContent a) = false)
    (hsup : anyKw super_boost_terms (titleContent a) = false)
    (hsrc : anyKw jvm_specific_sources (lowerStr a.source_name) = false) :
    rate_importance a ≤ 0.3 := by
  have htitle : anyKw high_value_topics (lowerStr a.title) = false := by
    by_contra hx
    rw [Bool.not_eq_false] at hx
    have h2 := anyKw_append high_value_topics (lowerStr a.title) (lowerStr (' ' :: a.content)) hx
    rw [← titleContent_decomp] at h2
    rw [h2] at hhv
    exact Bool.noConfusion hhv
  have hfull : 2 ≤ countKw generic_terms (titleContent a) := by
    have hsplit : countKw generic_terms (titleContent a)
        = countKw (["best deals", "sale"].map String.data) (titleContent a)
          + countKw (["discount"].map String.data) (titleContent a)
          + countKw (["movie"].map String.data) (titleContent a)
          + countKw (["show", "top 10", "best of", "review",
              "unboxing", "gaming", "games"].map String.data) (titleContent a) := by
      rw [← countKw_append_list, ← countKw_append_list, ← countKw_append_list]
      rfl
    have hsplit2 : countKw (["best deals", "sale", "movie"].map String.data) (titleContent a)
        = countKw (["best deals", "sale"].map String.data) (titleContent a)
          + countKw (["movie"].map String.data) (titleContent a) := by
      rw [← countKw_append_list]
      rfl
    rw [hsplit2] at hgen
    rw [hsplit]
    omega
  have h0 := countKw_zero_of_anyKw_false _ _ htech
  have h1 := countKw_zero_of_anyKw_false _ _ hhv
  simp only [rate_importance, rate_importance_raw, h0, h1, hsrc, htitle, hsup,
    Bool.false_eq_true, if_false]
  rw [if_pos hfull]
  norm_num [min_def, max_def]

/-- Witness for C6: a purely generic article scores at most 0.3. -/
theorem C6_witness : rate_importance aGenW ≤ 0.3 :=
  C6_amended_no_bonus_generic _ (by decide) (by decide) (by decide) (by decide) (by decide)

set_option maxRecDepth 10000 in
/-- C7 (counterexample).  The claim says any internal failure yields exactly
`"{title} - From {source_name}"`, but a failure inside the extractive
summarization step yields `"Failed to generate summary for '{title}'."`
instead: the handler producing the claimed literal sits in
`summarize_articles` and only fires if `_generate_summary` itself raises,
which it never does. -/
theorem C7_counterexample :
    LocalSummarizer.generate_summary failSumy aLongContent
      = "Failed to generate summary for ".data ++ [apos] ++ aLongContent.title
        ++ [apos] ++ ".".data
    ∧ LocalSummarizer.generate_summary failSumy aLongContent ≠ fallbackStr aLongContent := by
  refine ⟨by decide, by decide⟩

/-- C7 (amended).  The Local-Extractive summarizer never raises to its caller
(every raising construct is behind its internal handlers, so the result is a
plain string for every oracle behaviour), and an internal failure during
summarization of an article with usable content yields exactly the literal
`"Failed to generate summary for '{title}'."`. -/
theorem C7_amended_failure_literal (sumy : Str → Except PyErr (List Str)) (a : Article)
    (e : PyErr) (hc : ¬ (a.content = [] ∨ a.content.length < 100))
    (hfail : sumy (LocalSummarizer.clean_text a.content) = .error e) :
    LocalSummarizer.generate_summary sumy a
      = "Failed to generate summary for ".data ++ [apos] ++ a.title ++ [apos] ++ ".".data := by
  simp [LocalSummarizer.generate_summary, if_neg hc, hfail, Except.bind]

set_option maxRecDepth 10000 in
/-- Witness for C7: the amended statement at a concrete article and a failing
sumy pipeline. -/
theorem C7_witness :
    LocalSummarizer.generate_summary failSumy
        { title := "W".data, url := [], source_name := "S".data,
          content := List.replicate 150 'b' }
      = "Failed to generate summary for ".data ++ [apos] ++ "W".data ++ [apos] ++ ".".data :=
  C7_amended_failure_literal failSumy _ .runtime (by decide) rfl

/-- C8.  When every optional tier is absent or raises on the batch and the
mandatory Simple tier's call itself raises, every pending article is assigned
summary `"{title} - From {source_name}"` and score exactly 0.6 by a direct
field assignment that cannot fail, and the final null-score sweep leaves the
0.6 scores unchanged (the result is exactly the terminal-fallback image of
the input batch). -/
theorem C8_terminal_fallback_literal (t : AdaptiveTiers) (arts : List Article)
    (hne : arts ≠ [])
    (h1 : t.ollama_processor = none
      ∨ ∃ f e, t.ollama_processor = some f ∧ f arts = .error e)
    (h2 : t.openai_processor = none
      ∨ ∃ f e, t.openai_processor = some f ∧ f arts = .error e)
    (h3 : t.local_processor = none
      ∨ ∃ f e, t.local_processor = some f ∧ f arts = .error e)
    (h4 : ∃ e, t.simple_processor arts = .error e) :
    (AdaptiveArticleProcessor.process_articles t arts).1 = arts.map terminal_fallback
    ∧ ∀ b ∈ (AdaptiveArticleProcessor.process_articles t arts).1,
        b.summary = b.title ++ " - From ".data ++ b.source_name
        ∧ b.importance_score = some 0.6 := by
  obtain ⟨e4, he4⟩ := h4
  have hfc : ∀ a : Article, final_check (terminal_fallback a) = terminal_fallback a :=
    fun a => rfl
  have hmapfc : (arts.map terminal_fallback).map final_check = arts.map terminal_fallback := by
    rw [List.map_map]
    exact List.map_congr_left (fun a _ => hfc a)
  have hArtsEmpty : arts.isEmpty = false := by
    cases arts with
    | nil => exact absurd rfl hne
    | cons a l => rfl
  have key : ∀ tr : List Stage,
      (processRemaining t [] arts tr).1 = arts.map terminal_fallback := by
    intro tr
    rcases h2 with h2 | ⟨f2, e2, hf2, he2⟩ <;> rcases h3 with h3 | ⟨f3, e3, hf3, he3⟩
    · simp only [processRemaining, hArtsEmpty, Bool.false_eq_true, if_false, h2, h3, he4,
        List.nil_append]
      exact hmapfc
    · simp only [processRemaining, hArtsEmpty, Bool.false_eq_true, if_false, h2, hf3, he3, he4,
        List.nil_append]
      exact hmapfc
    · simp only [processRemaining, hArtsEmpty, Bool.false_eq_true, if_false, hf2, he2, h3, he4,
        List.nil_append]
      exact hmapfc
    · simp only [processRemaining, hArtsEmpty, Bool.false_eq_true, if_false, hf2, he2, hf3, he3,
        he4, List.nil_append]
      exact hmapfc
  have hres : (AdaptiveArticleProcessor.process_articles t arts).1
      = arts.map terminal_fallback := by
    rw [AdaptiveArticleProcessor.process_articles]
    rcases h1 with h1 | ⟨f1, e1, hf1, he1⟩
    · simp only [hArtsEmpty, Bool.false_eq_true, if_false, h1]
      exact key []
    · simp only [hArtsEmpty, Bool.false_eq_true, if_false, hf1, he1]
      exact key [Stage.ollama]
  refine ⟨hres, ?_⟩
  intro b hb
  rw [hres] at hb
  obtain ⟨a, _, rfl⟩ := List.mem_map.mp hb
  exact ⟨rfl, rfl⟩

/-- Witness for C8: no optional tier constructed, a raising Simple tier, one
article. -/
theorem C8_witness :
    (AdaptiveArticleProcessor.process_articles tiersC8 [aW8]).1 = [aW8].map terminal_fallback
    ∧ ∀ b ∈ (AdaptiveArticleProcessor.process_articles tiersC8 [aW8]).1,
        b.summary = b.title ++ " - From ".data ++ b.source_name
        ∧ b.importance_score = some 0.6 :=
  C8_terminal_fallback_literal tiersC8 [aW8] (by simp) (Or.inl rfl) (Or.inl rfl) (Or.inl rfl)
    ⟨.runtime, rfl⟩

/-- C9.  `filter_jvm_articles` returns exactly the input articles whose
lowercased `title + " " + content` has at least one primary keyword or at
least three secondary keywords (entries counted as listed) and fewer than two
excluded keywords — in input order, as a sublist of the unmodified input
articles, so no article is mutated. -/
theorem C9_filter_jvm_articles_exact (arts : List Article) :
    filter_jvm_articles arts = arts.filter (fun a => decide (jvm_relevant a))
    ∧ List.Sublist (filter_jvm_articles arts) arts := by
  have heq : filter_jvm_articles arts = arts.filter (fun a => decide (jvm_relevant a)) := by
    induction arts with
    | nil => rfl
    | cons a rest ih =>
      by_cases h : (1 ≤ countKw primary_jvm_keywords (titleContent a)
          ∨ 3 ≤ countKw secondary_jvm_keywords (titleContent a))
        ∧ countKw excluded_keywords (titleContent a) < 2
      · simp only [filter_jvm_articles, List.filter_cons, ih]
        rw [if_pos h, if_pos (decide_eq_true (show jvm_relevant a from h))]
      · simp only [filter_jvm_articles, List.filter_cons, ih]
        rw [if_neg h, if_neg (by simpa using decide_eq_false (show ¬ jvm_relevant a from h))]
  exact ⟨heq, heq ▸ List.filter_sublist arts⟩

/-- Witness for C9: the filter characterization at a concrete one-article
batch (which the filter keeps). -/
theorem C9_witness :
    filter_jvm_articles [aW9] = [aW9].filter (fun a => decide (jvm_relevant a))
    ∧ List.Sublist (filter_jvm_articles [aW9]) [aW9] :=
  C9_filter_jvm_articles_exact [aW9]

/-- C10.  `mask_sensitive_value` reveals nothing beyond the first character,
the last character and the length: on inputs longer than 4 that agree on
those, the outputs coincide; the output has the input's length with every
interior character `'*'`; and every input of length at most 4 (the empty
string included) maps to the constant `"****"`. -/
theorem C10_mask_reveals_only_ends :
    (∀ v w : Str, 4 < v.length → v.length = w.length →
      v.head? = w.head? → v.getLast? = w.getLast? →
      mask_sensitive_value v = mask_sensitive_value w)
    ∧ (∀ v : Str, 4 < v.length →
      (mask_sensitive_value v).length = v.length ∧
      ((mask_sensitive_value v).drop 1).dropLast = List.replicate (v.length - 2) '*')
    ∧ (∀ v : Str, v.length ≤ 4 → mask_sensitive_value v = "****".data) := by
  have hmask : ∀ v : Str, 4 < v.length →
      mask_sensitive_value v =
        v.head?.toList ++ List.replicate (v.length - 2) '*' ++ v.getLast?.toList := by
    intro v hv
    have hne : ¬ (v = [] ∨ v.length ≤ 4) := by
      push_neg
      refine ⟨?_, by omega⟩
      rintro rfl; simp at hv
    rw [mask_sensitive_value, if_neg hne, drop_penult]
    congr 1
    cases v with
    | nil => simp at hv
    | cons a t => rfl
  refine ⟨?_, ?_, ?_⟩
  · intro v w hv hlen hh hl
    rw [hmask v hv, hmask w (hlen ▸ hv), hh, hl, hlen]
  · intro v hv
    constructor
    · rw [hmask v hv]
      cases v with
      | nil => simp at hv
      | cons a t =>
        cases h : (a :: t).getLast? with
        | none => simp at h
        | some b =>
          simp only [h, List.head?_cons, Option.toList, List.length_append,
            List.length_replicate, List.length_cons, List.length_nil]
          simp only [List.length_cons] at hv
          omega
    · rw [hmask v hv]
      cases v with
      | nil => simp at hv
      | cons a t =>
        cases h : (a :: t).getLast? with
        | none => simp at h
        | some b =>
          simp only [h, List.head?_cons, Option.toList]
          rw [List.drop_one]
          show ((List.replicate ((a :: t).length - 2) '*' ++ [b]).dropLast) = _
          rw [List.dropLast_concat]
  · intro v hv
    rw [mask_sensitive_value, if_pos (Or.inr hv)]

/-- Witness for C10: two equal-length secrets agreeing on their end
characters mask identically; the mask keeps the length; a short secret masks
to the constant. -/
theorem C10_witness :
    mask_sensitive_value "secret-key-one".data = mask_sensitive_value "sacred-pin-twe".data
    ∧ (mask_sensitive_value "secret-key-one".data).length = ("secret-key-one".data).length
    ∧ mask_sensitive_value "key".data = "****".data := by
  refine ⟨?_, ?_, ?_⟩
  · exact C10_mask_reveals_only_ends.1 _ _ (by decide) (by decide) (by decide) (by decide)
  · exact (C10_mask_reveals_only_ends.2.1 _ (by decide)).1
  · exact C10_mask_reveals_only_ends.2.2 _ (by decide)
